import Mathlib

/-!
# GeoStyle — shallow embedding

A shallow embedding of `src/geostyle.js`, the location-resolution pipeline of
the GeoStyle library, and proofs of the specification claims about it.

Modelling conventions:

* Network responses are inputs: an `Env` record fixes, for one collection
  pass, the outcome of the three possible outbound fetches (the full IP
  geolocation query, the census geocoder query, and the city-only fallback IP
  query).  `Except Unit` distinguishes a network/parse failure (the fetch or
  `response.json()` throwing) from a parsed response.
* JavaScript truthiness is modelled explicitly: an optional string field is
  truthy when present and non-empty; an optional numeric field is truthy when
  present and non-zero (`!ipData.lat` in the source is falsy for `0`).
* `getSimpleClassificationFallback` is an `async` function whose result is
  used without `await` at its two call sites in `getCensusClassification`;
  the value flowing onward there is a Promise object, not a string.  `JsClass`
  records this: `.str s` is a settled string, `.promise s` is an unawaited
  Promise that would resolve to `s`, and `.emptyObj` is what such a Promise
  becomes after a `JSON.stringify`/`JSON.parse` round trip through the
  session cache (a Promise serialises as the empty object).
* Side effects are made visible in return values: each pipeline function
  returns, besides its result, the list of outbound fetches it issues, and
  `getLocationData` returns the new session-store contents.
* Fields of the context that no claim touches (time-of-day buckets, browser
  fingerprint, timestamps, durations) are environment-reading trivia and are
  abstracted away from `UserContext`.
-/

namespace GeoStyle

/-- One record inside a geography-type entry of the census geocoder response;
only the `BASENAME` field is read by the source (`geographies['States']?.[0]?.BASENAME`). -/
structure GeoRecord where
  BASENAME : Option String
deriving Repr, DecidableEq

/-- The `result.geographies` map of the census geocoder response, keyed by
geography-type name; each value is the array of geography records.  Modelled
as an association list (first binding wins, as in a JS object literal). -/
abbrev Geographies := List (String × List GeoRecord)

/-- Key lookup in the geographies map.  In the source the check is JS
truthiness of `geographies[key]`; the value is always an array (truthy), so
presence of the key is the condition. -/
def lookupGeo (geos : Geographies) (key : String) : Option (List GeoRecord) :=
  geos.lookup key

/-- The parsed body of the full IP geolocation query
(`?fields=lat,lon,status,region,country,city,timezone,query`).  Every field
may be absent; string fields may also be empty. -/
structure IpData where
  status : Option String
  lat : Option Int
  lon : Option Int
  city : Option String
  region : Option String
  country : Option String
  timezone : Option String
  query : Option String
deriving Repr, DecidableEq

/-- The parsed body of the census geocoder query: `data?.result?.geographies`
is `none` when any level of the nesting is absent. -/
structure CensusData where
  geographies : Option Geographies
deriving Repr, DecidableEq

/-- The three outbound fetches the pipeline can issue: the full IP
geolocation query, the census geocoder query, and the city-only IP query made
by the fallback classifier. -/
inductive FetchCall where
  | ipFull
  | census
  | ipCityOnly
deriving Repr, DecidableEq

/-- The fixed outcomes of the outbound fetches during one collection pass.
`Except.error ()` is a network error or a body that fails to parse (the
corresponding `await` throws into the enclosing `catch`). -/
structure Env where
  ipResponse : Except Unit IpData
  censusResponse : Except Unit CensusData
  /-- the `city` field of the fallback query's parsed body -/
  fallbackCity : Except Unit (Option String)
deriving Repr

/-- JS truthiness of an optional string: present and non-empty. -/
def jsTruthyStr : Option String → Bool
  | some s => s != ""
  | none => false

/-- JS truthiness of an optional number: present and non-zero
(`!x` is `true` for `undefined`, `null` and `0`). -/
def jsTruthyNum : Option Int → Bool
  | some n => n != 0
  | none => false

/-- `v || d` for a string-valued `v` and string default `d`. -/
def jsOrStr (v : Option String) (d : String) : String :=
  if jsTruthyStr v then v.getD d else d

/-- `v || null` for a string-valued `v`. -/
def jsOrNullStr (v : Option String) : Option String :=
  if jsTruthyStr v then v else none

/-- A JS value sitting in a `classification` slot: a settled string, an
unawaited Promise together with the string it would resolve to, or the empty
object a Promise turns into under a JSON round trip. -/
inductive JsClass where
  | str (s : String)
  | promise (resolvesTo : String)
  | emptyObj
deriving Repr, DecidableEq

/-- `c || d` where `c` is a classification slot value: a string is falsy
only when empty; a Promise and an object are always truthy. -/
def jsOrClass (c : JsClass) (d : String) : JsClass :=
  match c with
  | .str s => if s = "" then .str d else .str s
  | c => c

/-- `getSimpleClassificationFallback(latitude, longitude)`: one city-only IP
query; a truthy city other than the literal `'Unknown'` gives `'urban'`,
anything else — including a network error — gives `'rural'`.  The coordinates
are accepted but unused in the source, so they are dropped here.  Returns the
resolved value of the Promise together with the fetch issued. -/
def getSimpleClassificationFallback (env : Env) : String × List FetchCall :=
  match env.fallbackCity with
  | .ok city =>
    if jsTruthyStr city && city != some "Unknown" then
      ("urban", [.ipCityOnly])
    else
      ("rural", [.ipCityOnly])
  | .error _ => ("rural", [.ipCityOnly])

/-- `geographies['States']?.[0]?.BASENAME || null`. -/
def extractState (geos : Geographies) : Option String :=
  match lookupGeo geos "States" with
  | some recs =>
    match recs.head? with
    | some r => jsOrNullStr r.BASENAME
    | none => none
  | none => none

/-- `getCensusClassification(latitude, longitude)`: one census geocoder
query; on a missing geographies map or any error the source builds
`{ classification: this.getSimpleClassificationFallback(...), state: null }`
WITHOUT awaiting the async fallback, so the classification slot holds a
Promise (`JsClass.promise` of the value it would resolve to); the fallback's
fetch is still issued eagerly.  Otherwise the first-match chain over the
geography-type keys decides, with `'rural'` as the initialised default when
no key matches, and the state is extracted from the `States` entry. -/
def getCensusClassification (env : Env) : (JsClass × Option String) × List FetchCall :=
  match env.censusResponse with
  | .error _ =>
    let fb := getSimpleClassificationFallback env
    ((.promise fb.1, none), .census :: fb.2)
  | .ok data =>
    match data.geographies with
    | none =>
      let fb := getSimpleClassificationFallback env
      ((.promise fb.1, none), .census :: fb.2)
    | some geos =>
      let classification :=
        if (lookupGeo geos "Urban Areas").isSome then "urban"
        else if (lookupGeo geos "Combined Statistical Areas").isSome
            || (lookupGeo geos "Metropolitan Statistical Areas").isSome
            || (lookupGeo geos "Incorporated Places").isSome
            || (lookupGeo geos "Census Tracts").isSome then "suburban"
        else if (lookupGeo geos "Counties").isSome
            || (lookupGeo geos "States").isSome then "rural"
        else "rural"
      ((.str classification, extractState geos), [.census])

/-- The assembled `location` object of a successful pass (also the shape
stored in and read back from the session cache). -/
structure LocationRecord where
  latitude : Option Int
  longitude : Option Int
  city : String
  region : String
  country : String
  timezone : String
  ip : Option String
  state : String
deriving Repr, DecidableEq

/-- `{ location, classification }`, the value returned by `getLocationData`
and cached under the fixed session key. -/
structure LocationResult where
  location : LocationRecord
  classification : JsClass
deriving Repr, DecidableEq

/-- `JSON.stringify` on a classification slot: a Promise (and an object)
serialises as the empty object `\x7b\x7d`; a string survives. -/
def serializeClass : JsClass → JsClass
  | .str s => .str s
  | .promise _ => .emptyObj
  | .emptyObj => .emptyObj

/-- The JSON round trip a `LocationResult` undergoes on its way through the
session cache. -/
def serializeResult (r : LocationResult) : LocationResult :=
  { r with classification := serializeClass r.classification }

/-- The truthiness gate of `getLocationData`:
`ipData.status !== 'success' || !ipData.lat || !ipData.lon`. -/
def ipGateFails (ipData : IpData) : Bool :=
  ipData.status != some "success" || !jsTruthyNum ipData.lat || !jsTruthyNum ipData.lon

/-- The `result` object `getLocationData` builds after a successful IP
lookup: coordinates carried over, `'Unknown'` substituted for the falsy
string fields, `ip` set to `query || null`, state defaulting to
`'Unknown'`, classification defaulting to `'unknown'`. -/
def assembleResult (env : Env) (ipData : IpData) : LocationResult :=
  { location :=
      { latitude := ipData.lat
        longitude := ipData.lon
        city := jsOrStr ipData.city "Unknown"
        region := jsOrStr ipData.region "Unknown"
        country := jsOrStr ipData.country "Unknown"
        timezone := jsOrStr ipData.timezone "Unknown"
        ip := jsOrNullStr ipData.query
        state := jsOrStr (getCensusClassification env).1.2 "Unknown" }
    classification := jsOrClass (getCensusClassification env).1.1 "unknown" }

/-- Contents of the session store under the fixed key `'geoStyleLocation'`:
either a string that parses back to a record, or a corrupt string on which
`JSON.parse` throws (with the given message).  `none` models an absent key. -/
inductive CacheEntry where
  | valid (r : LocationResult)
  | corrupt (msg : String)
deriving Repr, DecidableEq

/-- `getLocationData()`: cache check, then the IP query with the
status/coordinate truthiness gate, then census classification, assembly of
the result with `'Unknown'` substitutions (`ip` gets `|| null`), and the
single cache write.  Returns the result (`Except.error` models the function
rejecting — `JSON.parse` on a corrupt cached string throws before the `try`
block), the fetches issued, and the new session-store contents. -/
def getLocationData (store : Option CacheEntry) (env : Env) :
    Except String (Option LocationResult) × List FetchCall × Option CacheEntry :=
  match store with
  | some (.valid r) => (.ok (some r), [], store)
  | some (.corrupt msg) => (.error msg, [], store)
  | none =>
    match env.ipResponse with
    | .error _ => (.ok none, [.ipFull], none)
    | .ok ipData =>
      if ipGateFails ipData then
        (.ok none, [.ipFull], none)
      else
        let result := assembleResult env ipData
        (.ok (some result), .ipFull :: (getCensusClassification env).2,
         some (.valid (serializeResult result)))

/-- The published context, restricted to the fields the claims mention;
time-of-day, browser snapshot, timestamp and duration are abstracted away. -/
structure UserContext where
  location : Option LocationRecord
  geographicClassification : Option JsClass
  error : Option String
deriving Repr, DecidableEq

/-- One publication action of `collectUserContext`: the constructor-time
callback, the write to `window.geoStyleContext`, or the dispatch of the
`geoStyleReady` event, each carrying the context it publishes. -/
inductive PubAction where
  | callback (c : UserContext)
  | setGlobal (c : UserContext)
  | dispatch (c : UserContext)
deriving Repr, DecidableEq

/-- `collectUserContext()`: builds the context (location and classification
stay `none` when `getLocationData` yields `null`), publishes it via
callback, global slot and event; a rejection of `getLocationData` lands in
the `catch` block, which publishes the degraded context with classification
`'unknown'` and the captured error message through the same three channels.
`hasCallback` is whether a function was passed as `onDataReady`.  Returns
the context, the publication actions in order, the fetches issued, and the
new session-store contents. -/
def collectUserContext (hasCallback : Bool) (store : Option CacheEntry) (env : Env) :
    UserContext × List PubAction × List FetchCall × Option CacheEntry :=
  match getLocationData store env with
  | (.ok locationData, calls, newStore) =>
    let context : UserContext :=
      { location := locationData.map (fun r => r.location)
        geographicClassification := locationData.map (fun r => r.classification)
        error := none }
    (context,
     (if hasCallback then [.callback context] else [])
       ++ [.setGlobal context, .dispatch context],
     calls, newStore)
  | (.error msg, calls, newStore) =>
    let errorContext : UserContext :=
      { location := none
        geographicClassification := some (.str "unknown")
        error := some msg }
    (errorContext,
     (if hasCallback then [.callback errorContext] else [])
       ++ [.setGlobal errorContext, .dispatch errorContext],
     calls, newStore)

/-- The `window` state visible to `onGeoStyleReady` and the publication
channel: the `geoStyleContext` global slot, and the pending one-time
`geoStyleReady` listeners (identified by subscriber ids). -/
structure WindowState where
  slot : Option UserContext
  pending : List Nat
deriving Repr, DecidableEq

/-- `onGeoStyleReady(callback)` for subscriber `id`: a non-function argument
is rejected with no registration; with the global slot populated the
callback is invoked immediately and synchronously; otherwise a one-time
listener is registered.  Returns the new window state and the invocations
(subscriber id, context) performed now. -/
def onGeoStyleReady (isFunction : Bool) (id : Nat) (w : WindowState) :
    WindowState × List (Nat × UserContext) :=
  if isFunction then
    match w.slot with
    | some c => (w, [(id, c)])
    | none => ({ w with pending := w.pending ++ [id] }, [])
  else (w, [])

/-- `dispatchEvent(new CustomEvent('geoStyleReady', ...))`: every pending
one-time listener fires once with the detail and is removed. -/
def dispatchGeoStyleReady (c : UserContext) (w : WindowState) :
    WindowState × List (Nat × UserContext) :=
  ({ w with pending := [] }, w.pending.map (fun i => (i, c)))

/-- The publication tail of `collectUserContext` as seen by subscribers:
set the global slot, then dispatch the one-shot event. -/
def publish (c : UserContext) (w : WindowState) :
    WindowState × List (Nat × UserContext) :=
  dispatchGeoStyleReady c { w with slot := some c }

/-! ## Concrete environments used as test inputs -/

/-- A fully populated successful IP geolocation response. -/
def ipOk : IpData :=
  { status := some "success"
    lat := some 40
    lon := some (-74)
    city := some "Springfield"
    region := some "NJ"
    country := some "United States"
    timezone := some "America/New_York"
    query := some "93.184.216.34" }

/-- IP lookup succeeds; the census geocoder query fails with a network
error; the fallback city-only IP query returns city "Springfield". -/
def envCensusDown : Env :=
  { ipResponse := .ok ipOk
    censusResponse := .error ()
    fallbackCity := .ok (some "Springfield") }

/-- IP lookup succeeds; the census geocoder responds with a geographies map
that is present but contains none of the seven geography-type keys; the
fallback would say "urban" (city present) if it were consulted. -/
def envEmptyGeos : Env :=
  { ipResponse := .ok ipOk
    censusResponse := .ok { geographies := some [] }
    fallbackCity := .ok (some "Springfield") }

/-- IP lookup succeeds but every optional string field is absent and the
latitude is the (truthy) value 40; the census geocoder returns an Urban
Areas entry. -/
def envNoStrings : Env :=
  { ipResponse := .ok
      { status := some "success", lat := some 40, lon := some (-74),
        city := none, region := none, country := none, timezone := none,
        query := none }
    censusResponse := .ok { geographies := some [("Urban Areas", [⟨some "Springfield Urbanized Area"⟩])] }
    fallbackCity := .ok none }

/-- IP lookup reports success with latitude 0 (present and non-null) and a
usable longitude; the census geocoder would classify urban if it were
reached. -/
def envLatZero : Env :=
  { ipResponse := .ok { ipOk with lat := some 0 }
    censusResponse := .ok { geographies := some [("Urban Areas", [⟨some "Null Island"⟩])] }
    fallbackCity := .ok (some "Springfield") }

/-! ## Pipeline lemmas -/

/-- Every path through `getCensusClassification` issues the census fetch. -/
theorem census_call_always_issued (env : Env) :
    FetchCall.census ∈ (getCensusClassification env).2 := by
  unfold getCensusClassification
  rcases h : env.censusResponse with u | data
  · simp
  · rcases hg : data.geographies with _ | geos <;> simp [hg]

/-- Evaluation of a fresh pass when the IP fetch or its parse throws. -/
theorem getLocationData_ip_error (env : Env) (u : Unit)
    (hip : env.ipResponse = .error u) :
    getLocationData none env = (.ok none, [.ipFull], none) := by
  unfold getLocationData
  rw [hip]

/-- Evaluation of a fresh pass when the status/coordinate gate rejects. -/
theorem getLocationData_gate_closed (env : Env) (ipData : IpData)
    (hip : env.ipResponse = .ok ipData) (hgate : ipGateFails ipData = true) :
    getLocationData none env = (.ok none, [.ipFull], none) := by
  unfold getLocationData
  rw [hip]
  simp [hgate]

/-- Evaluation of a fresh pass when the status/coordinate gate passes. -/
theorem getLocationData_gate_open (env : Env) (ipData : IpData)
    (hip : env.ipResponse = .ok ipData) (hgate : ipGateFails ipData = false) :
    getLocationData none env
      = (.ok (some (assembleResult env ipData)),
         .ipFull :: (getCensusClassification env).2,
         some (.valid (serializeResult (assembleResult env ipData)))) := by
  unfold getLocationData
  rw [hip]
  simp [hgate]

/-! ## Claim theorems -/

/-- C1: for every cache state, IP-geolocation response, boundary-authority
response and fallback response (all failure modes included), one call to
`collectUserContext` publishes exactly one `UserContext`: the publication
trace is precisely one callback invocation (when a callback is registered),
one global-slot write and one event dispatch, all carrying the same single
context object — never zero and never twice. -/
theorem collectUserContext_publishes_exactly_once
    (hasCallback : Bool) (store : Option CacheEntry) (env : Env) :
    (collectUserContext hasCallback store env).2.1 =
      (if hasCallback then
        [PubAction.callback (collectUserContext hasCallback store env).1] else [])
      ++ [PubAction.setGlobal (collectUserContext hasCallback store env).1,
          PubAction.dispatch (collectUserContext hasCallback store env).1] := by
  unfold collectUserContext
  rcases getLocationData store env with ⟨res, calls, newStore⟩
  cases res <;> rfl

/-- C6: when a valid cached location record exists under the fixed cache
key, a collection pass returns that record's location and classification
unchanged, issues zero outbound fetches, and leaves the store as it was. -/
theorem cache_hit_short_circuits
    (hasCallback : Bool) (r : LocationResult) (env : Env) :
    (collectUserContext hasCallback (some (.valid r)) env).1.location = some r.location ∧
    (collectUserContext hasCallback (some (.valid r)) env).1.geographicClassification
        = some r.classification ∧
    (collectUserContext hasCallback (some (.valid r)) env).2.2.1 = [] ∧
    (collectUserContext hasCallback (some (.valid r)) env).2.2.2 = some (.valid r) := by
  refine ⟨rfl, rfl, rfl, rfl⟩

/-- C2: evaluation at the failing input.  When the census geocoder query
fails and the fallback IP query returns city "Springfield", the source
builds the classification slot from the UNAWAITED async fallback, so the
slot holds a Promise object (which would resolve to "urban"), not the
string 'urban'; the state is null as claimed, and the fallback fetch is
still issued after the census fetch. -/
theorem census_failure_leaves_unawaited_promise :
    getCensusClassification envCensusDown
      = ((JsClass.promise "urban", none), [FetchCall.census, FetchCall.ipCityOnly]) ∧
    (getCensusClassification envCensusDown).1.1 ≠ JsClass.str "urban" := by
  exact ⟨rfl, by decide⟩

/-- C3, counterexample: with a geographies map that is present but contains
none of the seven geography-type keys, and a fallback environment in which
the FallbackClassifier would answer "urban" (city present), the source
answers 'rural' on its own and issues no fallback fetch — the decision is
NOT delegated to the FallbackClassifier. -/
theorem empty_geographies_not_delegated :
    getCensusClassification envEmptyGeos
      = ((JsClass.str "rural", none), [FetchCall.census]) ∧
    getSimpleClassificationFallback envEmptyGeos
      = ("urban", [FetchCall.ipCityOnly]) := by
  exact ⟨rfl, rfl⟩

/-- C3, amended: for every boundary-authority response whose geographies map
is present but contains none of the seven geography-type keys, `classify`
returns the initialised default 'rural' directly, with state absent, and
issues only the census fetch (in particular the FallbackClassifier's
city-only IP fetch is never issued). -/
theorem no_matching_geography_rural_without_fallback
    (env : Env) (data : CensusData) (geos : Geographies)
    (hc : env.censusResponse = .ok data)
    (hg : data.geographies = some geos)
    (h1 : lookupGeo geos "Urban Areas" = none)
    (h2 : lookupGeo geos "Combined Statistical Areas" = none)
    (h3 : lookupGeo geos "Metropolitan Statistical Areas" = none)
    (h4 : lookupGeo geos "Incorporated Places" = none)
    (h5 : lookupGeo geos "Census Tracts" = none)
    (h6 : lookupGeo geos "Counties" = none)
    (h7 : lookupGeo geos "States" = none) :
    getCensusClassification env
      = ((JsClass.str "rural", none), [FetchCall.census]) := by
  unfold getCensusClassification
  rw [hc]
  simp [hg, h1, h2, h3, h4, h5, h6, h7, extractState]

/-- C3, witness for the amended theorem at the concrete empty map. -/
theorem no_matching_geography_rural_without_fallback_witness :
    getCensusClassification envEmptyGeos
      = ((JsClass.str "rural", none), [FetchCall.census]) :=
  no_matching_geography_rural_without_fallback envEmptyGeos
    { geographies := some [] } [] rfl rfl rfl rfl rfl rfl rfl rfl rfl

/-- C4: whenever the geographies map carries an "Urban Areas" entry, the
classification is 'urban', whatever other geography-type entries are also
present (first match of the fixed chain); the state is still extracted from
the "States" entry independently. -/
theorem urban_areas_entry_wins
    (env : Env) (data : CensusData) (geos : Geographies)
    (hc : env.censusResponse = .ok data)
    (hg : data.geographies = some geos)
    (hu : (lookupGeo geos "Urban Areas").isSome) :
    getCensusClassification env
      = ((JsClass.str "urban", extractState geos), [FetchCall.census]) := by
  unfold getCensusClassification
  rw [hc]
  simp [hg, hu]

/-- A response carrying an "Urban Areas" entry alongside suburban- and
rural-tier entries. -/
def geosUrbanPlus : Geographies :=
  [("Urban Areas", [⟨some "Trenton Urbanized Area"⟩]),
   ("Census Tracts", [⟨some "Tract 1"⟩]),
   ("Counties", [⟨some "Mercer"⟩]),
   ("States", [⟨some "New Jersey"⟩])]

/-- C4, witness: with Urban Areas present among suburban- and rural-tier
entries, classification is 'urban' and the state is still extracted. -/
theorem urban_areas_entry_wins_witness :
    getCensusClassification
      { ipResponse := .ok ipOk
        censusResponse := .ok { geographies := some geosUrbanPlus }
        fallbackCity := .ok (some "Springfield") }
      = ((JsClass.str "urban", some "New Jersey"), [FetchCall.census]) :=
  urban_areas_entry_wins _ { geographies := some geosUrbanPlus } geosUrbanPlus
    rfl rfl (by decide)

/-- C5: when the geographies map has no urban- or suburban-tier entry but
does have a "Counties" entry and a "States" entry whose first element's base
name is "California", the classification is 'rural' and the state is
"California"; and in general, when no "States" entry exists at all, the
state is absent. -/
theorem counties_and_states_rural_california
    (env : Env) (data : CensusData) (geos : Geographies)
    (recs : List GeoRecord) (r : GeoRecord)
    (hc : env.censusResponse = .ok data)
    (hg : data.geographies = some geos)
    (h1 : lookupGeo geos "Urban Areas" = none)
    (h2 : lookupGeo geos "Combined Statistical Areas" = none)
    (h3 : lookupGeo geos "Metropolitan Statistical Areas" = none)
    (h4 : lookupGeo geos "Incorporated Places" = none)
    (h5 : lookupGeo geos "Census Tracts" = none)
    (h6 : (lookupGeo geos "Counties").isSome)
    (h7 : lookupGeo geos "States" = some recs)
    (h8 : recs.head? = some r)
    (h9 : r.BASENAME = some "California") :
    getCensusClassification env
      = ((JsClass.str "rural", some "California"), [FetchCall.census]) ∧
    ∀ (env2 : Env) (data2 : CensusData) (geos2 : Geographies),
      env2.censusResponse = .ok data2 → data2.geographies = some geos2 →
      lookupGeo geos2 "States" = none →
      (getCensusClassification env2).1.2 = none := by
  constructor
  · unfold getCensusClassification
    rw [hc]
    simp [hg, h1, h2, h3, h4, h5, h6, extractState, h7, h8, h9,
      jsOrNullStr, jsTruthyStr]
  · intro env2 data2 geos2 hc2 hg2 hs2
    unfold getCensusClassification
    rw [hc2]
    simp [hg2, extractState, hs2]

/-- A response with only a Counties entry and a States entry whose first
element's base name is "California". -/
def geosCountiesCalifornia : Geographies :=
  [("Counties", [⟨some "Inyo"⟩]), ("States", [⟨some "California"⟩])]

/-- C5, witness: evaluated at the concrete Counties+States map, and the
state-absent half at the concrete empty map. -/
theorem counties_and_states_rural_california_witness :
    getCensusClassification
      { ipResponse := .ok ipOk
        censusResponse := .ok { geographies := some geosCountiesCalifornia }
        fallbackCity := .ok none }
      = ((JsClass.str "rural", some "California"), [FetchCall.census]) ∧
    (getCensusClassification envEmptyGeos).1.2 = none := by
  have h := counties_and_states_rural_california
    { ipResponse := .ok ipOk
      censusResponse := .ok { geographies := some geosCountiesCalifornia }
      fallbackCity := .ok none }
    { geographies := some geosCountiesCalifornia } geosCountiesCalifornia
    [⟨some "California"⟩] ⟨some "California"⟩
    rfl rfl rfl rfl rfl rfl rfl (by decide) rfl rfl rfl
  exact ⟨h.1, h.2 envEmptyGeos { geographies := some [] } [] rfl rfl rfl⟩

/-- C7: a subscriber registering through `onGeoStyleReady` is invoked with
the published context exactly once, whether it registers before the
publication (its one-time listener fires at the dispatch) or after it (the
populated global slot triggers an immediate synchronous replay).  The
subscriber's total invocation trace — its share of every emission — is the
single pair `(id, c)` in both orders. -/
theorem subscriber_invoked_exactly_once
    (c : UserContext) (w : WindowState) (id : Nat)
    (hslot : w.slot = none) (hid : id ∉ w.pending) :
    ((onGeoStyleReady true id w).2
        ++ ((publish c (onGeoStyleReady true id w).1).2.filter (fun p => p.1 == id))
      = [(id, c)]) ∧
    (((publish c w).2.filter (fun p => p.1 == id))
        ++ (onGeoStyleReady true id (publish c w).1).2
      = [(id, c)]) := by
  have hfilter : w.pending.filter (fun i => i == id) = [] := by
    rw [List.filter_eq_nil_iff]
    intro a ha
    simp only [beq_iff_eq]
    intro h
    exact hid (h ▸ ha)
  constructor
  · simp [onGeoStyleReady, hslot, publish, dispatchGeoStyleReady,
      List.filter_map, Function.comp_def, hfilter]
  · simp [onGeoStyleReady, hslot, publish, dispatchGeoStyleReady,
      List.filter_map, Function.comp_def, hfilter]

/-- C7, witness: a fresh window, subscriber 0; both registration orders
yield the single invocation. -/
theorem subscriber_invoked_exactly_once_witness :
    ((onGeoStyleReady true 0 ⟨none, []⟩).2
        ++ ((publish ⟨none, none, none⟩
              (onGeoStyleReady true 0 ⟨none, []⟩).1).2.filter (fun p => p.1 == 0))
      = [(0, ⟨none, none, none⟩)]) ∧
    (((publish ⟨none, none, none⟩ ⟨none, []⟩).2.filter (fun p => p.1 == 0))
        ++ (onGeoStyleReady true 0 (publish ⟨none, none, none⟩ ⟨none, []⟩).1).2
      = [(0, ⟨none, none, none⟩)]) :=
  subscriber_invoked_exactly_once ⟨none, none, none⟩ ⟨none, []⟩ 0 rfl (by simp)

/-- The location result assembled for `envNoStrings`: every absent string
field is substituted — except `ip`, which the source sets to `null`. -/
def recNoStrings : LocationResult :=
  { location :=
      { latitude := some 40, longitude := some (-74),
        city := "Unknown", region := "Unknown", country := "Unknown",
        timezone := "Unknown", ip := none, state := "Unknown" }
    classification := .str "urban" }

/-- C8, counterexample: with every optional string field absent from the IP
response, the assembled record substitutes "Unknown" for city, region,
country and timezone, but the `ip` field becomes `null` (the source writes
`ipData.query || null`), not "Unknown". -/
theorem absent_ip_field_becomes_null :
    (getLocationData none envNoStrings).1 = .ok (some recNoStrings) ∧
    recNoStrings.location.ip ≠ some "Unknown" := by
  exact ⟨rfl, by decide⟩

/-- C8, amended: on the success path of a fresh pass, an absent or empty
city, region, country or timezone field is substituted with "Unknown", the
state defaults to "Unknown" when no state was extracted — but an absent or
empty `query` field makes `ip` null rather than "Unknown". -/
theorem unknown_substitution
    (env : Env) (ipData : IpData) (r : LocationResult)
    (hip : env.ipResponse = .ok ipData)
    (hr : (getLocationData none env).1 = .ok (some r)) :
    ((ipData.city = none ∨ ipData.city = some "") → r.location.city = "Unknown") ∧
    ((ipData.region = none ∨ ipData.region = some "") → r.location.region = "Unknown") ∧
    ((ipData.country = none ∨ ipData.country = some "") → r.location.country = "Unknown") ∧
    ((ipData.timezone = none ∨ ipData.timezone = some "") → r.location.timezone = "Unknown") ∧
    ((ipData.query = none ∨ ipData.query = some "") → r.location.ip = none) ∧
    ((getCensusClassification env).1.2 = none → r.location.state = "Unknown") := by
  cases hgate : ipGateFails ipData
  · rw [getLocationData_gate_open env ipData hip hgate] at hr
    simp only [Except.ok.injEq, Option.some.injEq] at hr
    subst hr
    refine ⟨?_, ?_, ?_, ?_, ?_, ?_⟩ <;>
      first
        | (rintro (h | h) <;>
            simp [assembleResult, jsOrStr, jsOrNullStr, jsTruthyStr, h])
        | (intro h; simp [assembleResult, jsOrStr, jsTruthyStr, h])
  · rw [getLocationData_gate_closed env ipData hip hgate] at hr
    simp at hr

/-- C8, witness for the amended theorem at `envNoStrings`. -/
theorem unknown_substitution_witness :
    recNoStrings.location.city = "Unknown" ∧
    recNoStrings.location.region = "Unknown" ∧
    recNoStrings.location.country = "Unknown" ∧
    recNoStrings.location.timezone = "Unknown" ∧
    recNoStrings.location.ip = none ∧
    recNoStrings.location.state = "Unknown" := by
  have h := unknown_substitution envNoStrings
    { status := some "success", lat := some 40, lon := some (-74),
      city := none, region := none, country := none, timezone := none,
      query := none }
    recNoStrings rfl rfl
  exact ⟨h.1 (Or.inl rfl), h.2.1 (Or.inl rfl), h.2.2.1 (Or.inl rfl),
    h.2.2.2.1 (Or.inl rfl), h.2.2.2.2.1 (Or.inl rfl), h.2.2.2.2.2 rfl⟩

/-- C9, counterexample: an IP response with success status and both
coordinates present and non-null — latitude equal to 0 — is rejected by the
`!ipData.lat` truthiness gate: the pass yields `location = null` and never
reaches the boundary authority. -/
theorem lat_zero_treated_as_failure :
    envLatZero.ipResponse
      = .ok { ipOk with lat := some 0 } ∧
    (getLocationData none envLatZero).1 = .ok none ∧
    (getLocationData none envLatZero).2.1 = [FetchCall.ipFull] := by
  exact ⟨rfl, rfl, rfl⟩

/-- C9, amended: downstream classification proceeds exactly when the status
is the success sentinel and both coordinates are present and TRUTHY
(non-null and non-zero); a missing, null, or zero coordinate is treated as
a geolocation failure yielding `location = null` with no boundary-authority
call. -/
theorem truthiness_coordinate_gate
    (env : Env) (ipData : IpData)
    (hip : env.ipResponse = .ok ipData)
    (hst : ipData.status = some "success") :
    ((∃ a, ipData.lat = some a ∧ a ≠ 0) ∧ (∃ b, ipData.lon = some b ∧ b ≠ 0) →
       FetchCall.census ∈ (getLocationData none env).2.1 ∧
       ∃ r, (getLocationData none env).1 = .ok (some r)) ∧
    (ipData.lat = none ∨ ipData.lat = some 0 ∨ ipData.lon = none ∨ ipData.lon = some 0 →
       (getLocationData none env).1 = .ok none ∧
       FetchCall.census ∉ (getLocationData none env).2.1) := by
  constructor
  · rintro ⟨⟨a, ha, ha0⟩, ⟨b, hb, hb0⟩⟩
    have hgate : ipGateFails ipData = false := by
      simp [ipGateFails, hst, ha, hb, jsTruthyNum, ha0, hb0]
    rw [getLocationData_gate_open env ipData hip hgate]
    exact ⟨List.mem_cons_of_mem _ (census_call_always_issued env), _, rfl⟩
  · intro h
    have hgate : ipGateFails ipData = true := by
      rcases h with h | h | h | h <;> simp [ipGateFails, h, jsTruthyNum]
    rw [getLocationData_gate_closed env ipData hip hgate]
    exact ⟨rfl, by decide⟩

/-- C9, witness for the amended theorem: with both coordinates truthy the
census fetch is issued, and with latitude 0 the pass yields no location. -/
theorem truthiness_coordinate_gate_witness :
    FetchCall.census ∈ (getLocationData none envCensusDown).2.1 ∧
    (getLocationData none envLatZero).1 = .ok none := by
  refine ⟨((truthiness_coordinate_gate envCensusDown ipOk rfl rfl).1
    ⟨⟨40, rfl, by decide⟩, ⟨-74, rfl, by decide⟩⟩).1, ?_⟩
  exact ((truthiness_coordinate_gate envLatZero { ipOk with lat := some 0 } rfl rfl).2
    (Or.inr (Or.inl rfl))).1

/-- C10: the session store changes only on the success path — a fresh pass
whose IP lookup passed the gate and whose classification was attempted
(census fetch issued), and then it records exactly the serialised result; a
pass returning `null` (IP failure) or rejecting (corrupt cache) leaves the
store untouched, and any pass that starts with an empty store issues the IP
fetch again (it retries the network instead of reading a failure record). -/
theorem cache_written_only_after_success
    (store : Option CacheEntry) (env : Env) :
    ((getLocationData store env).2.2 ≠ store →
       store = none ∧
       ∃ r, (getLocationData store env).1 = .ok (some r) ∧
         (getLocationData store env).2.2 = some (.valid (serializeResult r)) ∧
         FetchCall.census ∈ (getLocationData store env).2.1) ∧
    ((getLocationData store env).1 = .ok none → (getLocationData store env).2.2 = store) ∧
    (∀ msg, (getLocationData store env).1 = .error msg →
       (getLocationData store env).2.2 = store) ∧
    (∀ env2, FetchCall.ipFull ∈ (getLocationData none env2).2.1) := by
  have hfresh : ∀ env2 : Env, FetchCall.ipFull ∈ (getLocationData none env2).2.1 := by
    intro env2
    rcases hip : env2.ipResponse with u | ipData
    · rw [getLocationData_ip_error env2 u hip]; exact List.mem_singleton.2 rfl
    · cases hgate : ipGateFails ipData
      · rw [getLocationData_gate_open env2 ipData hip hgate]
        exact List.mem_cons_self _ _
      · rw [getLocationData_gate_closed env2 ipData hip hgate]
        exact List.mem_singleton.2 rfl
  rcases store with _ | entry
  · rcases hip : env.ipResponse with u | ipData
    · rw [getLocationData_ip_error env u hip]
      refine ⟨fun h => absurd rfl h, fun _ => rfl, fun msg h => ?_, hfresh⟩
      simp at h
    · cases hgate : ipGateFails ipData
      · rw [getLocationData_gate_open env ipData hip hgate]
        refine ⟨fun _ => ⟨rfl, assembleResult env ipData, rfl, rfl,
          List.mem_cons_of_mem _ (census_call_always_issued env)⟩,
          fun h => ?_, fun msg h => ?_, hfresh⟩
        · simp at h
        · simp at h
      · rw [getLocationData_gate_closed env ipData hip hgate]
        refine ⟨fun h => absurd rfl h, fun _ => rfl, fun msg h => ?_, hfresh⟩
        simp at h
  · rcases entry with r | msg
    · exact ⟨fun h => absurd rfl h, fun _ => rfl, fun msg2 h => rfl, hfresh⟩
    · exact ⟨fun h => absurd rfl h, fun _ => rfl, fun msg2 h => rfl, hfresh⟩

/-- C10, witness: a successful fresh pass writes the serialised result and
issued the census fetch; the empty store always retries the IP fetch. -/
theorem cache_written_only_after_success_witness :
    ((none : Option CacheEntry) = none ∧
      ∃ r, (getLocationData none envNoStrings).1 = .ok (some r) ∧
        (getLocationData none envNoStrings).2.2 = some (.valid (serializeResult r)) ∧
        FetchCall.census ∈ (getLocationData none envNoStrings).2.1) ∧
    (getLocationData none envLatZero).2.2 = none :=
  ⟨(cache_written_only_after_success none envNoStrings).1 (by decide),
   (cache_written_only_after_success none envLatZero).2.1 rfl⟩

end GeoStyle
